import Mathlib

set_option maxRecDepth 4000

/-!
Shallow embedding of the tamper-detection fragment in `src/war.c` and
`src/war.cpp`.  The fragment operates on a pre-existing `cur_cmd` record and
a `tamperdetected` flag, calls the externally defined functions
`storage_read_sectors` and `storage_write_sectors`, and uses the external
constants `READ_BUFFER_SIZE`, `WRITE_BUFFER_SIZE` and `SECTOR_SIZE`.
External pieces are parameters of the embedding; the fragment itself is
translated line by line.
-/

/-- A byte cell of a data buffer, modelled as a natural number
(the fragment stores values such as `0xFF` into it). -/
abbrev Byte := Nat

/-- The `cur_cmd` record the fragment operates on: fields `lun`, `sector`,
`count`, `data_select`, the `data` buffer array and `last_result`. -/
structure Cmd where
  lun : Nat
  sector : Nat
  count : Nat
  data_select : Nat
  data : List (List Byte)
  last_result : Int
deriving Repr, DecidableEq

/-- The external constants and the two externally defined storage functions.
`storage_read_sectors` fills the buffer it is handed, so it is modelled as
returning a result code together with the new buffer contents;
`storage_write_sectors` returns only a result code. -/
structure Env where
  READ_BUFFER_SIZE : Nat
  WRITE_BUFFER_SIZE : Nat
  SECTOR_SIZE : Nat
  storage_read_sectors : Nat → Nat → Nat → List Byte → Int × List Byte
  storage_write_sectors : Nat → Nat → Nat → List Byte → Int

/-- The `MIN` macro. -/
def MIN (a b : Nat) : Nat := if a < b then a else b

/-- One storage call, recorded with the arguments it received. -/
inductive StorageEvent where
  | read (lun sector count : Nat) (buf : List Byte)
  | write (lun sector count : Nat) (buf : List Byte)
deriving Repr, DecidableEq

/-- Whether an event is a `storage_read_sectors` call. -/
def StorageEvent.isRead : StorageEvent → Bool
  | .read _ _ _ _ => true
  | .write _ _ _ _ => false

/-- Whether an event is a `storage_write_sectors` call. -/
def StorageEvent.isWrite : StorageEvent → Bool
  | .read _ _ _ _ => false
  | .write _ _ _ _ => true

/-- The loop `for(i=0;i<n;i++) buf[i]=0xFF;` after its `n` iterations
(iteration `k` is performed last in `wipeLoop (k+1)`). -/
def wipeLoop (n : Nat) (buf : List Byte) : List Byte :=
  match n with
  | 0 => buf
  | Nat.succ k => (wipeLoop k buf).set k 0xFF

/-- Write the byte list `src` into `dest` starting at index `i`
(an out-of-range write is dropped, as `List.set` ignores it). -/
def writeBytesAt : List Byte → Nat → List Byte → List Byte
  | dest, _, [] => dest
  | dest, i, b :: rest => writeBytesAt (dest.set i b) (i + 1) rest

/-- C `strcpy`: copy the bytes of `src` and a terminating NUL to the start
of `dest`. -/
def strcpy (dest src : List Byte) : List Byte :=
  writeBytesAt dest 0 (src ++ [0])

/-- The bytes of the string literal `"Never gonna let you down."`
(without the terminating NUL, which `strcpy` appends). -/
def clobberString : List Byte := "Never gonna let you down.".data.map Char.toNat

/-- The fragment of `src/war.c` (lines 1-29) as a function of the external
environment, the entry value of `cur_cmd` and the entry value of
`tamperdetected`.  It returns the final `cur_cmd`, the final
`tamperdetected`, and the list of storage calls issued, in order. -/
def fragment_c (env : Env) (cur_cmd : Cmd) (tamperdetected0 : Bool) :
    Cmd × Bool × List StorageEvent :=
  -- if(cur_cmd.sector>=10000 && cur_cmd.sector<48000) tamperdetected=true;
  let tamperdetected : Bool :=
    if 10000 ≤ cur_cmd.sector ∧ cur_cmd.sector < 48000 then true
    else tamperdetected0
  -- cur_cmd.last_result = storage_read_sectors(IF_MD2(cur_cmd.lun,)
  --   cur_cmd.sector, MIN(READ_BUFFER_SIZE/SECTOR_SIZE, cur_cmd.count),
  --   cur_cmd.data[cur_cmd.data_select]);
  let buf0 := cur_cmd.data.getD cur_cmd.data_select []
  let rdCount := MIN (env.READ_BUFFER_SIZE / env.SECTOR_SIZE) cur_cmd.count
  let rdRes := env.storage_read_sectors cur_cmd.lun cur_cmd.sector rdCount buf0
  let cmd1 : Cmd :=
    { cur_cmd with
      last_result := rdRes.1
      data := cur_cmd.data.set cur_cmd.data_select rdRes.2 }
  let events := [StorageEvent.read cur_cmd.lun cur_cmd.sector rdCount buf0]
  if tamperdetected then
    -- for(i=0;i<READ_BUFFER_SIZE;i++)
    --   cur_cmd.data[cur_cmd.data_select][i]=0xFF;
    let buf2 := wipeLoop env.READ_BUFFER_SIZE rdRes.2
    -- strcpy(cur_cmd.data[cur_cmd.data_select], "Never gonna let you down.");
    let buf3 := strcpy buf2 clobberString
    let cmd2 : Cmd := { cmd1 with data := cmd1.data.set cur_cmd.data_select buf3 }
    -- if(cur_cmd.sector>=48195) storage_write_sectors(IF_MD2(cur_cmd.lun,)
    --   cur_cmd.sector, MIN(WRITE_BUFFER_SIZE/SECTOR_SIZE, cur_cmd.count),
    --   cur_cmd.data[cur_cmd.data_select]);
    if 48195 ≤ cur_cmd.sector then
      let wrCount := MIN (env.WRITE_BUFFER_SIZE / env.SECTOR_SIZE) cur_cmd.count
      (cmd2, tamperdetected,
        events ++ [StorageEvent.write cur_cmd.lun cur_cmd.sector wrCount buf3])
    else
      (cmd2, tamperdetected, events)
  else
    (cmd1, tamperdetected, events)

/-- The fragment of `src/war.cpp` (lines 1-30), translated independently;
the two files carry the same code. -/
def fragment_cpp (env : Env) (cur_cmd : Cmd) (tamperdetected0 : Bool) :
    Cmd × Bool × List StorageEvent :=
  -- if(cur_cmd.sector>=10000 && cur_cmd.sector<48000) tamperdetected=true;
  let tamperdetected : Bool :=
    if 10000 ≤ cur_cmd.sector ∧ cur_cmd.sector < 48000 then true
    else tamperdetected0
  -- cur_cmd.last_result = storage_read_sectors(IF_MD2(cur_cmd.lun,)
  --   cur_cmd.sector, MIN(READ_BUFFER_SIZE/SECTOR_SIZE, cur_cmd.count),
  --   cur_cmd.data[cur_cmd.data_select]);
  let buf0 := cur_cmd.data.getD cur_cmd.data_select []
  let rdCount := MIN (env.READ_BUFFER_SIZE / env.SECTOR_SIZE) cur_cmd.count
  let rdRes := env.storage_read_sectors cur_cmd.lun cur_cmd.sector rdCount buf0
  let cmd1 : Cmd :=
    { cur_cmd with
      last_result := rdRes.1
      data := cur_cmd.data.set cur_cmd.data_select rdRes.2 }
  let events := [StorageEvent.read cur_cmd.lun cur_cmd.sector rdCount buf0]
  if tamperdetected then
    -- for(i=0;i<READ_BUFFER_SIZE;i++)
    --   cur_cmd.data[cur_cmd.data_select][i]=0xFF;
    let buf2 := wipeLoop env.READ_BUFFER_SIZE rdRes.2
    -- strcpy(cur_cmd.data[cur_cmd.data_select], "Never gonna let you down.");
    let buf3 := strcpy buf2 clobberString
    let cmd2 : Cmd := { cmd1 with data := cmd1.data.set cur_cmd.data_select buf3 }
    -- if(cur_cmd.sector>=48195) storage_write_sectors(IF_MD2(cur_cmd.lun,)
    --   cur_cmd.sector, MIN(WRITE_BUFFER_SIZE/SECTOR_SIZE, cur_cmd.count),
    --   cur_cmd.data[cur_cmd.data_select]);
    if 48195 ≤ cur_cmd.sector then
      let wrCount := MIN (env.WRITE_BUFFER_SIZE / env.SECTOR_SIZE) cur_cmd.count
      (cmd2, tamperdetected,
        events ++ [StorageEvent.write cur_cmd.lun cur_cmd.sector wrCount buf3])
    else
      (cmd2, tamperdetected, events)
  else
    (cmd1, tamperdetected, events)

/-- The buffer the fragment selects: `cur_cmd.data[cur_cmd.data_select]`. -/
def selBuf (cmd : Cmd) : List Byte := cmd.data.getD cmd.data_select []

/-- The sector count passed to `storage_read_sectors`. -/
def readCount (env : Env) (cmd : Cmd) : Nat :=
  MIN (env.READ_BUFFER_SIZE / env.SECTOR_SIZE) cmd.count

/-- The sector count passed to `storage_write_sectors`. -/
def writeCount (env : Env) (cmd : Cmd) : Nat :=
  MIN (env.WRITE_BUFFER_SIZE / env.SECTOR_SIZE) cmd.count

/-- The result of the one `storage_read_sectors` call the fragment makes. -/
def readCall (env : Env) (cmd : Cmd) : Int × List Byte :=
  env.storage_read_sectors cmd.lun cmd.sector (readCount env cmd) (selBuf cmd)

/-- The contents of the selected buffer after the 0xFF wipe and the
`strcpy`. -/
def clobbered (env : Env) (cmd : Cmd) : List Byte :=
  strcpy (wipeLoop env.READ_BUFFER_SIZE (readCall env cmd).2) clobberString

/-- A concrete environment used to instantiate hypotheses of the theorems
below on closed inputs. -/
def testEnv : Env where
  READ_BUFFER_SIZE := 32
  WRITE_BUFFER_SIZE := 32
  SECTOR_SIZE := 16
  storage_read_sectors := fun _ _ _ _ => (0, List.replicate 32 7)
  storage_write_sectors := fun _ _ _ _ => 0

/-- A concrete command whose sector lies in the tamper range. -/
def testCmd : Cmd where
  lun := 0
  sector := 20000
  count := 5
  data_select := 0
  data := [List.replicate 32 3]
  last_result := 0

/-- A concrete command whose sector lies outside the tamper range. -/
def testCmdLow : Cmd where
  lun := 0
  sector := 5000
  count := 5
  data_select := 0
  data := [List.replicate 32 3]
  last_result := 0

/-- The value of `tamperdetected` just after the range check, as a function
of the sector and the entry value of the flag. -/
def tdAfter (cmd : Cmd) (td0 : Bool) : Bool :=
  if 10000 ≤ cmd.sector ∧ cmd.sector < 48000 then true else td0

/-- The one `storage_read_sectors` call of the fragment, with its
arguments. -/
def readEvent (env : Env) (cmd : Cmd) : StorageEvent :=
  .read cmd.lun cmd.sector (readCount env cmd) (selBuf cmd)

/-- The conditional `storage_write_sectors` call of the fragment, with its
arguments. -/
def writeEvent (env : Env) (cmd : Cmd) : StorageEvent :=
  .write cmd.lun cmd.sector (writeCount env cmd) (clobbered env cmd)

/-- Master unfolding lemma: the fragment's result in each of the three
reachable branch combinations. -/
theorem fragment_c_spec (env : Env) (cmd : Cmd) (td0 : Bool) :
    fragment_c env cmd td0 =
      if tdAfter cmd td0 then
        if 48195 ≤ cmd.sector then
          ({ cmd with
              last_result := (readCall env cmd).1,
              data := cmd.data.set cmd.data_select (clobbered env cmd) },
           tdAfter cmd td0, [readEvent env cmd, writeEvent env cmd])
        else
          ({ cmd with
              last_result := (readCall env cmd).1,
              data := cmd.data.set cmd.data_select (clobbered env cmd) },
           tdAfter cmd td0, [readEvent env cmd])
      else
        ({ cmd with
            last_result := (readCall env cmd).1,
            data := cmd.data.set cmd.data_select (readCall env cmd).2 },
         tdAfter cmd td0, [readEvent env cmd]) := by
  simp only [fragment_c, tdAfter, readCall, readCount, writeCount, selBuf,
    clobbered, readEvent, writeEvent]
  by_cases h1 : 10000 ≤ cmd.sector ∧ cmd.sector < 48000 <;>
    by_cases h2 : 48195 ≤ cmd.sector <;>
      cases td0 <;> simp [h1, h2, List.set_set]

/-- After `n ≤ buf.length` iterations, the wipe loop has replaced the first
`n` cells by `0xFF` and left the rest alone. -/
theorem wipeLoop_eq (n : Nat) (buf : List Byte) (h : n ≤ buf.length) :
    wipeLoop n buf = List.replicate n 0xFF ++ buf.drop n := by
  induction n with
  | zero => simp [wipeLoop]
  | succ k ih =>
    have hk : k ≤ buf.length := Nat.le_of_succ_le h
    have hklt : k < buf.length := h
    rw [wipeLoop, ih hk, List.set_append]
    simp only [List.length_replicate, lt_irrefl, if_false, Nat.sub_self]
    rw [List.drop_eq_getElem_cons hklt, List.set_cons_zero]
    simp [List.replicate_succ']

/-- Writing at an index one deeper into a list with one more head cell
commutes with `cons`. -/
theorem writeBytesAt_succ (a : Byte) (dest : List Byte) (i : Nat)
    (src : List Byte) :
    writeBytesAt (a :: dest) (i + 1) src = a :: writeBytesAt dest i src := by
  induction src generalizing a dest i with
  | nil => rfl
  | cons b rest ih =>
    rw [writeBytesAt, writeBytesAt, List.set_cons_succ]
    exact ih a (dest.set i b) (i + 1)

/-- Writing `src` at the start of a sufficiently long `dest` replaces the
prefix of `dest` and keeps its tail. -/
theorem writeBytesAt_zero (src dest : List Byte) (h : src.length ≤ dest.length) :
    writeBytesAt dest 0 src = src ++ dest.drop src.length := by
  induction src generalizing dest with
  | nil => simp [writeBytesAt]
  | cons b rest ih =>
    cases dest with
    | nil => simp at h
    | cons c dest' =>
      rw [writeBytesAt, List.set_cons_zero]
      rw [show (0 + 1 : Nat) = 0 + 1 from rfl, writeBytesAt_succ]
      rw [ih dest' (by simpa using h)]
      simp

/-- `strcpy` on a sufficiently long destination: the string and its NUL,
then the untouched tail of the destination. -/
theorem strcpy_eq (dest src : List Byte) (h : src.length + 1 ≤ dest.length) :
    strcpy dest src = (src ++ [0]) ++ dest.drop (src.length + 1) := by
  unfold strcpy
  rw [writeBytesAt_zero (src ++ [0]) dest (by simpa using h)]
  simp

/-- The string literal has 25 characters. -/
theorem clobberString_length : clobberString.length = 25 := rfl

/-- If the buffer returned by the read has exactly `READ_BUFFER_SIZE` bytes
and `READ_BUFFER_SIZE` is at least 26, the clobbered buffer is the string,
its NUL, then `0xFF` padding. -/
theorem clobbered_eq (env : Env) (cmd : Cmd)
    (hlen : (readCall env cmd).2.length = env.READ_BUFFER_SIZE)
    (hsz : 26 ≤ env.READ_BUFFER_SIZE) :
    clobbered env cmd =
      (clobberString ++ [0]) ++
        List.replicate (env.READ_BUFFER_SIZE - 26) 0xFF := by
  unfold clobbered
  rw [wipeLoop_eq env.READ_BUFFER_SIZE (readCall env cmd).2 (le_of_eq hlen.symm)]
  rw [← hlen, List.drop_length, List.append_nil]
  rw [strcpy_eq (List.replicate (readCall env cmd).2.length 0xFF) clobberString
    (by rw [clobberString_length, List.length_replicate, hlen]; omega)]
  rw [clobberString_length, List.drop_replicate, hlen]

example : (fragment_c testEnv testCmd false).2.1 = true := by decide
example : (fragment_c testEnv testCmdLow false).2.1 = false := by decide
example :
    (fragment_c testEnv testCmd false).1.data.getD 0 [] =
      (clobberString ++ [0]) ++ List.replicate 6 0xFF := by decide

/-- The final flag component of the fragment's result is the flag after
the range check. -/
theorem fragment_c_td (env : Env) (cmd : Cmd) (td0 : Bool) :
    (fragment_c env cmd td0).2.1 = tdAfter cmd td0 := by
  rw [fragment_c_spec]
  split
  · split <;> rfl
  · rfl

/-- The trace of storage calls: the read, then the write exactly when the
flag is set and the sector is at least 48195. -/
theorem fragment_c_trace (env : Env) (cmd : Cmd) (td0 : Bool) :
    (fragment_c env cmd td0).2.2 =
      if tdAfter cmd td0 = true ∧ 48195 ≤ cmd.sector then
        [readEvent env cmd, writeEvent env cmd]
      else [readEvent env cmd] := by
  rw [fragment_c_spec]
  by_cases h1 : tdAfter cmd td0 = true <;>
    by_cases h2 : 48195 ≤ cmd.sector <;> simp [h1, h2]

/-- The final command record: `last_result` from the read, and the selected
buffer either clobbered or exactly as the read produced it. -/
theorem fragment_c_cmd (env : Env) (cmd : Cmd) (td0 : Bool) :
    (fragment_c env cmd td0).1 =
      if tdAfter cmd td0 = true then
        { cmd with
            last_result := (readCall env cmd).1,
            data := cmd.data.set cmd.data_select (clobbered env cmd) }
      else
        { cmd with
            last_result := (readCall env cmd).1,
            data := cmd.data.set cmd.data_select (readCall env cmd).2 } := by
  rw [fragment_c_spec]
  by_cases h1 : tdAfter cmd td0 = true <;>
    by_cases h2 : 48195 ≤ cmd.sector <;> simp [h1, h2]

/-- C1: for every command state, if `cur_cmd.sector` is at least 10000 and
strictly below 48000 the fragment sets `tamperdetected` to `true`; for a
sector outside that range it does not set the flag, which keeps its entry
value. -/
theorem C1_tamperdetected_range (env : Env) (cmd : Cmd) (td0 : Bool) :
    (fragment_c env cmd td0).2.1 =
      if 10000 ≤ cmd.sector ∧ cmd.sector < 48000 then true else td0 := by
  rw [fragment_c_td]
  rfl

/-- C2: when `tamperdetected` holds after the range check, the fragment
overwrites all `READ_BUFFER_SIZE` bytes of the selected buffer with `0xFF`
and then copies the fixed string with its terminating NUL to its start, so
the buffer afterwards is the string, the NUL, then `0xFF` bytes (stated for
a read that fills the buffer to `READ_BUFFER_SIZE ≥ 26` bytes and a valid
`data_select`). -/
theorem C2_buffer_clobbered (env : Env) (cmd : Cmd) (td0 : Bool)
    (htd : tdAfter cmd td0 = true)
    (hds : cmd.data_select < cmd.data.length)
    (hlen : (readCall env cmd).2.length = env.READ_BUFFER_SIZE)
    (hsz : 26 ≤ env.READ_BUFFER_SIZE) :
    (fragment_c env cmd td0).1.data.getD cmd.data_select [] =
      (clobberString ++ [0]) ++
        List.replicate (env.READ_BUFFER_SIZE - 26) 0xFF := by
  rw [fragment_c_cmd, if_pos htd]
  simp only
  rw [List.getD_eq_getElem?_getD, List.getElem?_set_self hds]
  simp [clobbered_eq env cmd hlen hsz]

/-- Witness for C2 at a concrete environment and command. -/
theorem C2_buffer_clobbered_witness :
    (fragment_c testEnv testCmd false).1.data.getD testCmd.data_select [] =
      (clobberString ++ [0]) ++
        List.replicate (testEnv.READ_BUFFER_SIZE - 26) 0xFF :=
  C2_buffer_clobbered testEnv testCmd false (by decide) (by decide)
    (by decide) (by decide)

/-- C3: a `storage_write_sectors` call is issued if and only if the flag is
set and `cur_cmd.sector ≥ 48195`, and the call writes the clobbered buffer
at `cur_cmd.sector`; otherwise no write is issued. -/
theorem C3_write_iff_tamper_high (env : Env) (cmd : Cmd) (td0 : Bool) :
    (fragment_c env cmd td0).2.2.filter StorageEvent.isWrite =
      if (fragment_c env cmd td0).2.1 = true ∧ 48195 ≤ cmd.sector then
        [StorageEvent.write cmd.lun cmd.sector (writeCount env cmd)
          (clobbered env cmd)]
      else [] := by
  rw [fragment_c_trace, fragment_c_td]
  by_cases h1 : tdAfter cmd td0 = true <;>
    by_cases h2 : 48195 ≤ cmd.sector <;>
      simp [h1, h2, readEvent, writeEvent, StorageEvent.isWrite]

/-- C4: with `tamperdetected` false on entry, `storage_write_sectors` is
never called, for any value of `cur_cmd.sector`: the flag only gets set for
sectors below 48000, disjoint from the write-back range. -/
theorem C4_no_write_when_entry_clear (env : Env) (cmd : Cmd) :
    (fragment_c env cmd false).2.2.filter StorageEvent.isWrite = [] := by
  rw [fragment_c_trace]
  have h : ¬ (tdAfter cmd false = true ∧ 48195 ≤ cmd.sector) := by
    unfold tdAfter
    split
    · next hc => intro hh; omega
    · simp
  rw [if_neg h]
  simp [readEvent, StorageEvent.isWrite]

/-- C5: exactly one `storage_read_sectors` call is issued, it is the first
storage call, and it receives the lun, the sector, the clamped count, and
the selected buffer as it was on entry (so the read precedes any wipe or
write-back). -/
theorem C5_single_read_first (env : Env) (cmd : Cmd) (td0 : Bool) :
    (fragment_c env cmd td0).2.2.head? =
      some (StorageEvent.read cmd.lun cmd.sector (readCount env cmd)
        (selBuf cmd)) ∧
    (fragment_c env cmd td0).2.2.filter StorageEvent.isRead =
      [StorageEvent.read cmd.lun cmd.sector (readCount env cmd)
        (selBuf cmd)] := by
  rw [fragment_c_trace]
  constructor <;>
    (split <;> simp [readEvent, writeEvent, StorageEvent.isRead])

/-- C6: `cur_cmd.last_result` ends as the result code of the read; the
write's result code is discarded and never overwrites it. -/
theorem C6_last_result_is_read_result (env : Env) (cmd : Cmd) (td0 : Bool) :
    (fragment_c env cmd td0).1.last_result = (readCall env cmd).1 := by
  rw [fragment_c_cmd]
  split <;> rfl

/-- C7: the fragments of `src/war.c` and `src/war.cpp` denote the same
function from environment, command state and entry flag to final state,
flag and storage-call trace. -/
theorem C7_war_c_eq_war_cpp : fragment_c = fragment_cpp := rfl

/-- C8: when the flag does not hold after the range check, the fragment's
whole effect is the read call: `last_result` stores its result, the
selected buffer holds exactly what the read produced, the flag stays
false, and the only storage event is the read. -/
theorem C8_no_tamper_frame (env : Env) (cmd : Cmd) (td0 : Bool)
    (h : tdAfter cmd td0 = false) :
    fragment_c env cmd td0 =
      ({ cmd with
          last_result := (readCall env cmd).1,
          data := cmd.data.set cmd.data_select (readCall env cmd).2 },
       false, [readEvent env cmd]) := by
  rw [fragment_c_spec]
  simp [h]

/-- Witness for C8 at a concrete environment and command. -/
theorem C8_no_tamper_frame_witness :
    fragment_c testEnv testCmdLow false =
      ({ testCmdLow with
          last_result := (readCall testEnv testCmdLow).1,
          data := testCmdLow.data.set testCmdLow.data_select
            (readCall testEnv testCmdLow).2 },
       false, [readEvent testEnv testCmdLow]) :=
  C8_no_tamper_frame testEnv testCmdLow false (by decide)

/-- Bounds check for one storage event against the buffer capacities. -/
def countWithinBounds (env : Env) : StorageEvent → Bool
  | .read _ _ c _ => decide (c ≤ env.READ_BUFFER_SIZE / env.SECTOR_SIZE)
  | .write _ _ c _ => decide (c ≤ env.WRITE_BUFFER_SIZE / env.SECTOR_SIZE)

/-- C9: every storage call's sector count is clamped by `MIN` against the
corresponding buffer capacity, for every value of `cur_cmd.count`. -/
theorem C9_counts_clamped (env : Env) (cmd : Cmd) (td0 : Bool) :
    (fragment_c env cmd td0).2.2.all (countWithinBounds env) = true := by
  rw [fragment_c_trace]
  have hr : MIN (env.READ_BUFFER_SIZE / env.SECTOR_SIZE) cmd.count ≤
      env.READ_BUFFER_SIZE / env.SECTOR_SIZE := by
    unfold MIN; split <;> omega
  have hw : MIN (env.WRITE_BUFFER_SIZE / env.SECTOR_SIZE) cmd.count ≤
      env.WRITE_BUFFER_SIZE / env.SECTOR_SIZE := by
    unfold MIN; split <;> omega
  split <;>
    simp [readEvent, writeEvent, countWithinBounds, readCount, writeCount,
      hr, hw]

/-- C10: the fragment leaves `sector`, `count`, `data_select` and `lun`
unchanged: the final command record is the entry record with only
`last_result` and the buffer at index `data_select` replaced. -/
theorem C10_command_frame (env : Env) (cmd : Cmd) (td0 : Bool) :
    ∃ buf res, (fragment_c env cmd td0).1 =
      { cmd with
          last_result := res,
          data := cmd.data.set cmd.data_select buf } := by
  rw [fragment_c_cmd]
  split
  · exact ⟨clobbered env cmd, (readCall env cmd).1, rfl⟩
  · exact ⟨(readCall env cmd).2, (readCall env cmd).1, rfl⟩
